import Mathlib

/-!
Shallow embedding of `src/myfs.c`, a BSD-style kernel filesystem module
(`myfs`): the VFS operations (`myfs_mount`, `myfs_unmount`, `myfs_root`,
`myfs_statfs`, `myfs_vget`) and the vnode operations of the driver's
dispatch table.  Machine integers are modelled as `Nat`/`Int` (no value in
this driver approaches an overflow boundary: every arithmetic assignment in
the source is a constant store).  A C function that only calls `printf` and
returns a constant is embedded as the constant function; functions that
mutate a vnode or the mount structure return the updated record.
A dereference of a possibly-NULL pointer with no NULL check in the source
is embedded with an `Option` result (`none` = undefined behavior).
-/

namespace Myfs

/- Constants from the source and from the host kernel headers it includes. -/

/-- MYFS_MAGIC, `"MYFS" in hex` (myfs.c line 38). -/
def MYFS_MAGIC : Nat := 0x4D594653

/-- MYFS_VERSION (myfs.c line 40). -/
def MYFS_VERSION : Nat := 1

/-- Host page size, used for `f_iosize`/`f_bsize` (x86 default). -/
def PAGE_SIZE : Nat := 4096

/-- Host NAME_MAX, used for `f_namemax`. -/
def NAME_MAX : Nat := 255

/-- MNT_LOCAL mount flag (sys/mount.h). -/
def MNT_LOCAL : Nat := 0x00001000

/-- MNT_WAIT: blocking fsync mode (sys/mount.h). -/
def MNT_WAIT : Nat := 1

/-- MNT_NOWAIT: non-blocking fsync mode (sys/mount.h). -/
def MNT_NOWAIT : Nat := 2

/- BSD errno values returned by the driver (sys/errno.h). -/

/-- EIO: I/O error. -/
def EIO : Nat := 5

/-- ENOMEM: cannot allocate memory. -/
def ENOMEM : Nat := 12

/-- EBUSY: device busy. -/
def EBUSY : Nat := 16

/-- ENOTTY: inappropriate ioctl for device. -/
def ENOTTY : Nat := 25

/-- EINVAL: invalid argument. -/
def EINVAL : Nat := 22

/-- EOPNOTSUPP: operation not supported. -/
def EOPNOTSUPP : Nat := 45

/-- ENOSYS: function not implemented. -/
def ENOSYS : Nat := 78

/-- struct myfs_sb (myfs.c lines 43-48): the filesystem superblock. -/
structure myfs_sb where
  magic : Nat
  total_blocks : Nat
  free_blocks : Nat
deriving DecidableEq

/-- struct myfs_mount (myfs.c lines 51-55): per-mount data hung off
`mp->mnt_data`.  The back pointer `mp` is not represented (it would make
the record recursive and the driver never reads it). -/
structure MyfsMountData where
  sb : myfs_sb
deriving DecidableEq

/-- struct timespec. -/
structure Timespec where
  tv_sec : Int
  tv_nsec : Int
deriving DecidableEq

/-- struct myfs_node (myfs.c lines 58-67): per-vnode data. -/
structure myfs_node where
  ino : Nat
  mode : Nat
  nlink : Nat
  size : Int
  atime : Timespec
  mtime : Timespec
  ctime : Timespec
deriving DecidableEq

/-- The slice of a kernel `struct vnode` this driver touches: the private
data pointer `v_data` (NULL = `none`) and the kernel-maintained reference
count, which the spec's claims quantify over. -/
structure Vnode where
  v_data : Option myfs_node
  v_refcnt : Nat
deriving DecidableEq

/-- The fields of `mp->mnt_stat` written by `myfs_mount`. -/
structure MntStat where
  f_iosize : Nat
  f_blocks : Nat
  f_bfree : Nat
  f_bavail : Nat
  f_namemax : Nat
deriving DecidableEq

/-- The slice of a kernel `struct mount` this driver touches. -/
structure Mount where
  mnt_data : Option MyfsMountData
  mnt_stat : MntStat
  mnt_flag : Nat
deriving DecidableEq

/-- The fields of `struct statfs` written by `myfs_statfs`. -/
structure StatfsRec where
  f_blocks : Nat
  f_bfree : Nat
  f_bavail : Nat
  f_files : Nat
  f_ffree : Nat
  f_bsize : Nat
  f_iosize : Nat
  f_namemax : Nat
deriving DecidableEq

/-- myfs_mount (myfs.c lines 144-177).  `malloc(..., M_WAITOK | M_ZERO)`
never returns NULL (it sleeps until memory is available), so the `ENOMEM`
branch is dead code and mount always takes the success path: allocate the
mount data, initialize the superblock to `{MYFS_MAGIC, 0, 0}`, fill
`mnt_stat`, set `MNT_LOCAL`, return 0. -/
def myfs_mount (mp : Mount) : Mount × Nat :=
  let mmp : MyfsMountData :=
    { sb := { magic := MYFS_MAGIC, total_blocks := 0, free_blocks := 0 } }
  ({ mnt_data := some mmp
     mnt_stat :=
       { f_iosize := PAGE_SIZE
         f_blocks := mmp.sb.total_blocks
         f_bfree := mmp.sb.free_blocks
         f_bavail := mmp.sb.free_blocks
         f_namemax := NAME_MAX }
     mnt_flag := mp.mnt_flag ||| MNT_LOCAL }, 0)

/-- myfs_unmount (myfs.c lines 180-193): if `mnt_data` is non-NULL, free it
and clear the pointer; return 0 unconditionally.  No reference-count check
and no busy check appear anywhere in the function. -/
def myfs_unmount (mp : Mount) : Mount × Nat :=
  match mp.mnt_data with
  | some _ => ({ mp with mnt_data := none }, 0)
  | none => (mp, 0)

/-- myfs_root (myfs.c lines 196-202): prints and returns ENOSYS without
producing a vnode (`*vpp` is never assigned). -/
def myfs_root (_mp : Mount) : Option Vnode × Nat :=
  (none, ENOSYS)

/-- myfs_statfs (myfs.c lines 205-222): dereferences `mp->mnt_data` with no
NULL check (`none` result = undefined behavior), copies the superblock block
counts and constant inode counts into the caller's buffer, returns 0. -/
def myfs_statfs (mp : Mount) (_sbp : StatfsRec) : Option (StatfsRec × Nat) :=
  match mp.mnt_data with
  | none => none
  | some mmp =>
      some
        ({ f_blocks := mmp.sb.total_blocks
           f_bfree := mmp.sb.free_blocks
           f_bavail := mmp.sb.free_blocks
           f_files := 0
           f_ffree := 0
           f_bsize := PAGE_SIZE
           f_iosize := PAGE_SIZE
           f_namemax := NAME_MAX }, 0)

/-- myfs_vget (myfs.c lines 225-231): prints and returns ENOSYS without
producing a vnode. -/
def myfs_vget (_mp : Mount) (_ino : Nat) : Option Vnode × Nat :=
  (none, ENOSYS)

/- Vnode operation argument records: the slice of each `struct vop_*_args`
that the corresponding DragonFly VOP carries.  Every stub below ignores its
argument record, exactly as the C function ignores `ap`. -/

/-- Arguments of VOP_LOOKUP: directory vnode and component name. -/
structure VopLookupArgs where
  a_dvp : Vnode
  a_name : String
deriving DecidableEq

/-- Arguments of VOP_CREATE. -/
structure VopCreateArgs where
  a_dvp : Vnode
  a_name : String
  a_mode : Nat
deriving DecidableEq

/-- Arguments of VOP_MKNOD. -/
structure VopMknodArgs where
  a_dvp : Vnode
  a_name : String
  a_mode : Nat
deriving DecidableEq

/-- Arguments of VOP_OPEN. -/
structure VopOpenArgs where
  a_vp : Vnode
  a_mode : Nat
deriving DecidableEq

/-- Arguments of VOP_CLOSE. -/
structure VopCloseArgs where
  a_vp : Vnode
  a_fflag : Nat
deriving DecidableEq

/-- Arguments of VOP_ACCESS. -/
structure VopAccessArgs where
  a_vp : Vnode
  a_mode : Nat
deriving DecidableEq

/-- Arguments of VOP_GETATTR. -/
structure VopGetattrArgs where
  a_vp : Vnode
deriving DecidableEq

/-- Arguments of VOP_SETATTR. -/
structure VopSetattrArgs where
  a_vp : Vnode
deriving DecidableEq

/-- The slice of `struct uio` relevant to read/write: starting offset and
residual byte count requested. -/
structure UioRec where
  uio_offset : Int
  uio_resid : Nat
deriving DecidableEq

/-- Arguments of VOP_READ. -/
structure VopReadArgs where
  a_vp : Vnode
  a_uio : UioRec
  a_ioflag : Nat
deriving DecidableEq

/-- Arguments of VOP_WRITE. -/
structure VopWriteArgs where
  a_vp : Vnode
  a_uio : UioRec
  a_ioflag : Nat
deriving DecidableEq

/-- Arguments of VOP_IOCTL. -/
structure VopIoctlArgs where
  a_vp : Vnode
  a_command : Nat
deriving DecidableEq

/-- Arguments of VOP_POLL. -/
structure VopPollArgs where
  a_vp : Vnode
  a_events : Nat
deriving DecidableEq

/-- Arguments of VOP_RECLAIM. -/
structure VopReclaimArgs where
  a_vp : Vnode
deriving DecidableEq

/-- Arguments of VOP_READDIR. -/
structure VopReaddirArgs where
  a_vp : Vnode
  a_uio : UioRec
deriving DecidableEq

/-- Arguments of VOP_READLINK. -/
structure VopReadlinkArgs where
  a_vp : Vnode
deriving DecidableEq

/-- Arguments of VOP_SYMLINK. -/
structure VopSymlinkArgs where
  a_dvp : Vnode
  a_name : String
  a_target : String
deriving DecidableEq

/-- Arguments of VOP_REMOVE. -/
structure VopRemoveArgs where
  a_dvp : Vnode
  a_vp : Vnode
  a_name : String
deriving DecidableEq

/-- Arguments of VOP_RENAME. -/
structure VopRenameArgs where
  a_fdvp : Vnode
  a_fname : String
  a_tdvp : Vnode
  a_tname : String
deriving DecidableEq

/-- Arguments of VOP_MKDIR. -/
structure VopMkdirArgs where
  a_dvp : Vnode
  a_name : String
  a_mode : Nat
deriving DecidableEq

/-- Arguments of VOP_RMDIR. -/
structure VopRmdirArgs where
  a_dvp : Vnode
  a_name : String
deriving DecidableEq

/-- Arguments of VOP_INACTIVE. -/
structure VopInactiveArgs where
  a_vp : Vnode
deriving DecidableEq

/-- Arguments of VOP_TRUNCATE. -/
structure VopTruncateArgs where
  a_vp : Vnode
  a_length : Int
deriving DecidableEq

/-- Arguments of VOP_FSYNC: vnode and wait mode. -/
structure VopFsyncArgs where
  a_vp : Vnode
  a_waitfor : Nat
deriving DecidableEq

/-- myfs_lookup (myfs.c lines 235-240): prints and returns ENOSYS. -/
def myfs_lookup (_ap : VopLookupArgs) : Nat := ENOSYS

/-- myfs_create (myfs.c lines 242-247): prints and returns ENOSYS. -/
def myfs_create (_ap : VopCreateArgs) : Nat := ENOSYS

/-- myfs_mknod (myfs.c lines 249-254): prints and returns ENOSYS. -/
def myfs_mknod (_ap : VopMknodArgs) : Nat := ENOSYS

/-- myfs_open (myfs.c lines 256-261): prints and returns 0. -/
def myfs_open (_ap : VopOpenArgs) : Nat := 0

/-- myfs_close (myfs.c lines 263-268): prints and returns 0. -/
def myfs_close (_ap : VopCloseArgs) : Nat := 0

/-- myfs_access (myfs.c lines 270-275): prints and returns ENOSYS. -/
def myfs_access (_ap : VopAccessArgs) : Nat := ENOSYS

/-- myfs_getattr (myfs.c lines 277-282): prints and returns ENOSYS. -/
def myfs_getattr (_ap : VopGetattrArgs) : Nat := ENOSYS

/-- myfs_setattr (myfs.c lines 284-289): prints and returns ENOSYS. -/
def myfs_setattr (_ap : VopSetattrArgs) : Nat := ENOSYS

/-- myfs_read (myfs.c lines 291-296): prints and returns ENOSYS,
regardless of the vnode, offset or requested length. -/
def myfs_read (_ap : VopReadArgs) : Nat := ENOSYS

/-- myfs_write (myfs.c lines 298-303): prints and returns ENOSYS. -/
def myfs_write (_ap : VopWriteArgs) : Nat := ENOSYS

/-- myfs_ioctl (myfs.c lines 305-310): prints and returns ENOTTY. -/
def myfs_ioctl (_ap : VopIoctlArgs) : Nat := ENOTTY

/-- myfs_poll (myfs.c lines 312-317): prints and returns ENOSYS. -/
def myfs_poll (_ap : VopPollArgs) : Nat := ENOSYS

/-- myfs_reclaim (myfs.c lines 319-334): if `vp->v_data` is non-NULL, free
the node and clear the pointer; return 0 unconditionally. -/
def myfs_reclaim (ap : VopReclaimArgs) : Vnode × Nat :=
  match ap.a_vp.v_data with
  | some _ => ({ ap.a_vp with v_data := none }, 0)
  | none => (ap.a_vp, 0)

/-- myfs_readdir (myfs.c lines 336-341): prints and returns ENOSYS. -/
def myfs_readdir (_ap : VopReaddirArgs) : Nat := ENOSYS

/-- myfs_readlink (myfs.c lines 343-348): prints and returns ENOSYS. -/
def myfs_readlink (_ap : VopReadlinkArgs) : Nat := ENOSYS

/-- myfs_symlink (myfs.c lines 350-355): prints and returns ENOSYS. -/
def myfs_symlink (_ap : VopSymlinkArgs) : Nat := ENOSYS

/-- myfs_remove (myfs.c lines 357-362): prints and returns ENOSYS. -/
def myfs_remove (_ap : VopRemoveArgs) : Nat := ENOSYS

/-- myfs_rename (myfs.c lines 364-369): prints and returns ENOSYS. -/
def myfs_rename (_ap : VopRenameArgs) : Nat := ENOSYS

/-- myfs_mkdir (myfs.c lines 371-376): prints and returns ENOSYS. -/
def myfs_mkdir (_ap : VopMkdirArgs) : Nat := ENOSYS

/-- myfs_rmdir (myfs.c lines 378-383): prints and returns ENOSYS. -/
def myfs_rmdir (_ap : VopRmdirArgs) : Nat := ENOSYS

/-- myfs_inactive (myfs.c lines 385-390): prints and returns 0. -/
def myfs_inactive (_ap : VopInactiveArgs) : Nat := 0

/-- myfs_truncate (myfs.c lines 392-397): prints and returns ENOSYS. -/
def myfs_truncate (_ap : VopTruncateArgs) : Nat := ENOSYS

/-- myfs_fsync (myfs.c lines 400-439): both the MNT_WAIT and the
MNT_NOWAIT branch only print; the function mutates nothing and returns 0. -/
def myfs_fsync (ap : VopFsyncArgs) : Nat :=
  if ap.a_waitfor = MNT_WAIT then 0 else 0

/-!
Kernel state and a step relation: the state the host kernel keeps on behalf
of one mount of this driver (the `struct mount` slice plus the vnode table
with kernel-maintained reference counts), and one step per driver entry
point of the dispatch tables `myfs_vfsops` / `myfs_vops`.
-/

/-- The kernel state for one mounted instance: the mount structure and the
vnode table (each vnode with its kernel-maintained reference count). -/
structure KernelState where
  mp : Mount
  vnodes : List Vnode
deriving DecidableEq

/-- One invocation of a driver entry point, with the arguments the host
passes: vnode operations name their vnode by index into the vnode table. -/
inductive DriverOp where
  | opUnmount
  | opRoot
  | opStatfs (sbp : StatfsRec)
  | opVget (ino : Nat)
  | opLookup (i : Nat) (name : String)
  | opCreate (i : Nat) (name : String) (mode : Nat)
  | opMknod (i : Nat) (name : String) (mode : Nat)
  | opOpen (i : Nat) (mode : Nat)
  | opClose (i : Nat) (fflag : Nat)
  | opAccess (i : Nat) (mode : Nat)
  | opGetattr (i : Nat)
  | opSetattr (i : Nat)
  | opRead (i : Nat) (u : UioRec) (ioflag : Nat)
  | opWrite (i : Nat) (u : UioRec) (ioflag : Nat)
  | opIoctl (i : Nat) (command : Nat)
  | opPoll (i : Nat) (events : Nat)
  | opReclaim (i : Nat)
  | opReaddir (i : Nat) (u : UioRec)
  | opReadlink (i : Nat)
  | opSymlink (i : Nat) (name : String) (target : String)
  | opRemove (i : Nat) (j : Nat) (name : String)
  | opRename (i : Nat) (fname : String) (j : Nat) (tname : String)
  | opMkdir (i : Nat) (name : String) (mode : Nat)
  | opRmdir (i : Nat) (name : String)
  | opInactive (i : Nat)
  | opTruncate (i : Nat) (length : Int)
  | opFsync (i : Nat) (waitfor : Nat)
deriving DecidableEq

/-- Run a vnode operation that reads the vnode at index `i` but mutates
nothing: the kernel passes a valid vnode (`none` = host contract broken). -/
def withVnode (s : KernelState) (i : Nat) (f : Vnode → Nat) :
    Option (KernelState × Nat) :=
  match s.vnodes.get? i with
  | some vp => some (s, f vp)
  | none => none

/-- Run a vnode operation that reads the vnodes at indices `i` and `j` but
mutates nothing. -/
def withVnode2 (s : KernelState) (i j : Nat) (f : Vnode → Vnode → Nat) :
    Option (KernelState × Nat) :=
  match s.vnodes.get? i, s.vnodes.get? j with
  | some vp, some wp => some (s, f vp wp)
  | _, _ => none

/-- Dispatch one driver entry point against the kernel state, returning the
updated state and the errno the driver returns; `none` marks undefined
behavior (a NULL dereference in `myfs_statfs`, or a vnode index the host
would never pass). -/
def step (s : KernelState) : DriverOp → Option (KernelState × Nat)
  | .opUnmount =>
      some ({ s with mp := (myfs_unmount s.mp).1 }, (myfs_unmount s.mp).2)
  | .opRoot => some (s, (myfs_root s.mp).2)
  | .opStatfs sbp =>
      match myfs_statfs s.mp sbp with
      | some r => some (s, r.2)
      | none => none
  | .opVget ino => some (s, (myfs_vget s.mp ino).2)
  | .opLookup i name =>
      withVnode s i fun vp => myfs_lookup { a_dvp := vp, a_name := name }
  | .opCreate i name mode =>
      withVnode s i fun vp =>
        myfs_create { a_dvp := vp, a_name := name, a_mode := mode }
  | .opMknod i name mode =>
      withVnode s i fun vp =>
        myfs_mknod { a_dvp := vp, a_name := name, a_mode := mode }
  | .opOpen i mode =>
      withVnode s i fun vp => myfs_open { a_vp := vp, a_mode := mode }
  | .opClose i fflag =>
      withVnode s i fun vp => myfs_close { a_vp := vp, a_fflag := fflag }
  | .opAccess i mode =>
      withVnode s i fun vp => myfs_access { a_vp := vp, a_mode := mode }
  | .opGetattr i => withVnode s i fun vp => myfs_getattr { a_vp := vp }
  | .opSetattr i => withVnode s i fun vp => myfs_setattr { a_vp := vp }
  | .opRead i u ioflag =>
      withVnode s i fun vp =>
        myfs_read { a_vp := vp, a_uio := u, a_ioflag := ioflag }
  | .opWrite i u ioflag =>
      withVnode s i fun vp =>
        myfs_write { a_vp := vp, a_uio := u, a_ioflag := ioflag }
  | .opIoctl i command =>
      withVnode s i fun vp => myfs_ioctl { a_vp := vp, a_command := command }
  | .opPoll i events =>
      withVnode s i fun vp => myfs_poll { a_vp := vp, a_events := events }
  | .opReclaim i =>
      match s.vnodes.get? i with
      | some vp =>
          some ({ s with vnodes := s.vnodes.set i (myfs_reclaim { a_vp := vp }).1 },
            (myfs_reclaim { a_vp := vp }).2)
      | none => none
  | .opReaddir i u =>
      withVnode s i fun vp => myfs_readdir { a_vp := vp, a_uio := u }
  | .opReadlink i => withVnode s i fun vp => myfs_readlink { a_vp := vp }
  | .opSymlink i name target =>
      withVnode s i fun vp =>
        myfs_symlink { a_dvp := vp, a_name := name, a_target := target }
  | .opRemove i j name =>
      withVnode2 s i j fun dvp vp =>
        myfs_remove { a_dvp := dvp, a_vp := vp, a_name := name }
  | .opRename i fname j tname =>
      withVnode2 s i j fun fdvp tdvp =>
        myfs_rename { a_fdvp := fdvp, a_fname := fname, a_tdvp := tdvp, a_tname := tname }
  | .opMkdir i name mode =>
      withVnode s i fun vp =>
        myfs_mkdir { a_dvp := vp, a_name := name, a_mode := mode }
  | .opRmdir i name =>
      withVnode s i fun vp => myfs_rmdir { a_dvp := vp, a_name := name }
  | .opInactive i => withVnode s i fun vp => myfs_inactive { a_vp := vp }
  | .opTruncate i length =>
      withVnode s i fun vp =>
        myfs_truncate { a_vp := vp, a_length := length }
  | .opFsync i waitfor =>
      withVnode s i fun vp => myfs_fsync { a_vp := vp, a_waitfor := waitfor }

/-- Run a sequence of driver operations, threading the kernel state and
discarding the returned errnos. -/
def run (s : KernelState) : List DriverOp → Option KernelState
  | [] => some s
  | op :: rest =>
      match step s op with
      | some r => run r.1 rest
      | none => none

/-!
Superblock invariants, stated on the mount structure: a predicate on the
superblock must hold whenever the mount data pointer is live.
-/

/-- A superblock predicate, lifted to a mount structure: vacuously true
when `mnt_data` is NULL (no superblock exists). -/
def mntPredB (P : myfs_sb → Bool) (mp : Mount) : Bool :=
  match mp.mnt_data with
  | none => true
  | some mmp => P mmp.sb

/-- The block-count invariant `free_blocks ≤ total_blocks` of the mounted
superblock. -/
def sbInvB (mp : Mount) : Bool :=
  mntPredB (fun sb => decide (sb.free_blocks ≤ sb.total_blocks)) mp

/-- The magic invariant: the mounted superblock's `magic` equals
MYFS_MAGIC. -/
def magicInvB (mp : Mount) : Bool :=
  mntPredB (fun sb => sb.magic == MYFS_MAGIC) mp

/-!
The spec's abstract error-kind vocabulary.
-/

/-- The error kinds of the specification's error model (spec §7). -/
inductive ErrorKind where
  | notFound
  | alreadyExists
  | notEmpty
  | notADirectory
  | isADirectory
  | invalidArgument
  | permissionDenied
  | noSpace
  | busy
  | notSupported
  | ioError
deriving DecidableEq

/-- Modelled from the spec: §7's abstract error kinds, keyed by the
standard BSD errno realizing each.  `ENOTTY` (inappropriate ioctl) and
`ENOSYS` (function not implemented) both realize the spec's `NotSupported`
kind — §4.4 gives `fails(NotSupported)` as the default policy for the
operations this stub leaves unimplemented, and these are the errnos the
stub returns for them.  Errno 0 (success) and errnos outside the spec's
model map to `none`. -/
def errnoKind : Nat → Option ErrorKind
  | 2 => some .notFound          -- ENOENT
  | 5 => some .ioError           -- EIO
  | 13 => some .permissionDenied -- EACCES
  | 16 => some .busy             -- EBUSY
  | 17 => some .alreadyExists    -- EEXIST
  | 20 => some .notADirectory    -- ENOTDIR
  | 21 => some .isADirectory     -- EISDIR
  | 22 => some .invalidArgument  -- EINVAL
  | 25 => some .notSupported     -- ENOTTY
  | 28 => some .noSpace          -- ENOSPC
  | 45 => some .notSupported     -- EOPNOTSUPP
  | 66 => some .notEmpty         -- ENOTEMPTY
  | 78 => some .notSupported     -- ENOSYS
  | _ => none

/-!
Concrete states used by witnesses and counterexamples.
-/

/-- A mount structure as the host hands it to `myfs_mount`: nothing set. -/
def mp0 : Mount :=
  { mnt_data := none
    mnt_stat :=
      { f_iosize := 0, f_blocks := 0, f_bfree := 0, f_bavail := 0
        f_namemax := 0 }
    mnt_flag := 0 }

/-- The mount structure right after `myfs_mount`. -/
def mpMounted : Mount := (myfs_mount mp0).1

/-- The mount data `myfs_mount` installs. -/
def mmp0 : MyfsMountData :=
  { sb := { magic := MYFS_MAGIC, total_blocks := 0, free_blocks := 0 } }

/-- A zeroed statfs buffer. -/
def sbp0 : StatfsRec :=
  { f_blocks := 0, f_bfree := 0, f_bavail := 0, f_files := 0, f_ffree := 0
    f_bsize := 0, f_iosize := 0, f_namemax := 0 }

/-- A regular-file node of size 0. -/
def node0 : myfs_node :=
  { ino := 2, mode := 0o100644, nlink := 1, size := 0
    atime := { tv_sec := 0, tv_nsec := 0 }
    mtime := { tv_sec := 0, tv_nsec := 0 }
    ctime := { tv_sec := 0, tv_nsec := 0 } }

/-- A directory node, standing in for the root directory. -/
def dirNode0 : myfs_node :=
  { ino := 1, mode := 0o040755, nlink := 2, size := 0
    atime := { tv_sec := 0, tv_nsec := 0 }
    mtime := { tv_sec := 0, tv_nsec := 0 }
    ctime := { tv_sec := 0, tv_nsec := 0 } }

/-- A vnode holding `node0` with one live reference. -/
def vnBusy : Vnode := { v_data := some node0, v_refcnt := 1 }

/-- A directory vnode with one live reference. -/
def vnDir : Vnode := { v_data := some dirNode0, v_refcnt := 1 }

/-- A mounted kernel state whose single vnode has a nonzero reference
count. -/
def sBusy : KernelState :=
  { mp := (myfs_mount mp0).1, vnodes := [vnBusy] }

/-- The state after `myfs_unmount` runs on `sBusy`: the mount data is freed
while the live-referenced vnode is still there. -/
def sAfterUnmount : KernelState :=
  { sBusy with mp := { sBusy.mp with mnt_data := none } }

/-- Read arguments at offset 0 on the size-0 file `node0`: the offset is at
end-of-file. -/
def readA : VopReadArgs :=
  { a_vp := vnBusy, a_uio := { uio_offset := 0, uio_resid := 100 }
    a_ioflag := 0 }

/-- A concrete operation sequence: statistics, then reclaim of vnode 0,
then a blocking fsync of vnode 0. -/
def ops0 : List DriverOp :=
  [DriverOp.opStatfs sbp0, DriverOp.opReclaim 0, DriverOp.opFsync 0 MNT_WAIT]

/-- The state `ops0` leaves behind when run from `sBusy`. -/
def sX : KernelState :=
  { mp := mpMounted, vnodes := [{ v_data := none, v_refcnt := 1 }] }

/-- A concrete operation sequence: open and close vnode 0, then unmount. -/
def ops1 : List DriverOp :=
  [DriverOp.opOpen 0 1, DriverOp.opClose 0 1, DriverOp.opUnmount]

/-!
Helper lemmas about the step relation.
-/

/-- A `withVnode` dispatch never changes the kernel state. -/
theorem withVnode_state (s : KernelState) (i : Nat) (f : Vnode → Nat)
    (s' : KernelState) (e : Nat) (h : withVnode s i f = some (s', e)) :
    s' = s := by
  unfold withVnode at h
  cases hg : s.vnodes.get? i with
  | none => rw [hg] at h; exact Option.noConfusion h
  | some vp =>
      rw [hg] at h
      injection h with h1
      injection h1 with hA hB
      exact hA.symm

/-- A `withVnode2` dispatch never changes the kernel state. -/
theorem withVnode2_state (s : KernelState) (i j : Nat) (f : Vnode → Vnode → Nat)
    (s' : KernelState) (e : Nat) (h : withVnode2 s i j f = some (s', e)) :
    s' = s := by
  unfold withVnode2 at h
  cases hg : s.vnodes.get? i with
  | none => rw [hg] at h; exact Option.noConfusion h
  | some vp =>
      rw [hg] at h
      cases hj : s.vnodes.get? j with
      | none => rw [hj] at h; exact Option.noConfusion h
      | some wp =>
          rw [hj] at h
          injection h with h1
          injection h1 with hA hB
          exact hA.symm

/-- Unmounting always leaves the mount data pointer NULL. -/
theorem myfs_unmount_mnt_data (mp : Mount) :
    (myfs_unmount mp).1.mnt_data = none := by
  unfold myfs_unmount
  cases hd : mp.mnt_data <;> simp [hd]

/-- Every driver step either leaves the mount structure unchanged or (in
the unmount case) leaves the mount data pointer NULL. -/
theorem step_mp (s : KernelState) (op : DriverOp) (s' : KernelState) (e : Nat)
    (h : step s op = some (s', e)) :
    s'.mp = s.mp ∨ s'.mp.mnt_data = none := by
  cases op <;> simp only [step] at h
  all_goals try exact Or.inl (congrArg KernelState.mp (withVnode_state _ _ _ _ _ h))
  all_goals try exact Or.inl (congrArg KernelState.mp (withVnode2_state _ _ _ _ _ _ h))
  case opUnmount =>
    injection h with h1
    injection h1 with hA hB
    refine Or.inr ?_
    rw [← hA]
    exact myfs_unmount_mnt_data s.mp
  case opRoot =>
    injection h with h1
    injection h1 with hA hB
    exact Or.inl (congrArg KernelState.mp hA).symm
  case opVget ino =>
    injection h with h1
    injection h1 with hA hB
    exact Or.inl (congrArg KernelState.mp hA).symm
  case opStatfs sbp =>
    cases hs : myfs_statfs s.mp sbp with
    | none => rw [hs] at h; exact Option.noConfusion h
    | some r2 =>
        rw [hs] at h
        injection h with h1
        injection h1 with hA hB
        exact Or.inl (congrArg KernelState.mp hA).symm
  case opReclaim i =>
    cases hg : s.vnodes.get? i with
    | none => rw [hg] at h; exact Option.noConfusion h
    | some vp =>
        rw [hg] at h
        injection h with h1
        injection h1 with hA hB
        exact Or.inl (congrArg KernelState.mp hA).symm

/-- Every driver step preserves any superblock predicate lifted to the
mount structure. -/
theorem step_mntPred (P : myfs_sb → Bool) (s : KernelState) (op : DriverOp)
    (s' : KernelState) (e : Nat) (hInv : mntPredB P s.mp = true)
    (h : step s op = some (s', e)) : mntPredB P s'.mp = true := by
  rcases step_mp s op s' e h with hmp | hmp
  · rw [hmp]; exact hInv
  · simp [mntPredB, hmp]

/-- Every run of driver steps preserves any superblock predicate lifted to
the mount structure. -/
theorem run_mntPred (P : myfs_sb → Bool) (ops : List DriverOp) :
    ∀ (s s' : KernelState), mntPredB P s.mp = true →
      run s ops = some s' → mntPredB P s'.mp = true := by
  induction ops with
  | nil =>
      intro s s' hInv hr
      simp only [run] at hr
      injection hr with h1
      rw [← h1]
      exact hInv
  | cons op rest ih =>
      intro s s' hInv hr
      simp only [run] at hr
      cases hstep : step s op with
      | none => rw [hstep] at hr; exact Option.noConfusion hr
      | some r =>
          rw [hstep] at hr
          exact ih r.1 s'
            (step_mntPred P s op r.1 r.2 hInv (by rw [hstep])) hr

/-!
Claim theorems.
-/

/-- Claim C1, counterexample: on a concretely mounted instance (the state
`myfs_mount` leaves behind), `myfs_root` does not succeed — it returns
ENOSYS and produces no vnode — and `myfs_lookup` of `.` on a directory
vnode also returns ENOSYS; ENOSYS is not success. -/
theorem c1_counterexample :
    myfs_root mpMounted = (none, ENOSYS) ∧
    myfs_lookup { a_dvp := vnDir, a_name := "." } = ENOSYS ∧
    ENOSYS ≠ 0 :=
  ⟨rfl, rfl, by decide⟩

/-- Claim C1, amended: for every mount structure, `myfs_root` returns
ENOSYS and no vnode, and `myfs_lookup` returns ENOSYS for every argument
(including a lookup of `.`): root resolution is unimplemented in this stub
and always fails, never succeeding with the root inode. -/
theorem c1_root_lookup_unimplemented :
    ∀ (mp : Mount) (ap : VopLookupArgs),
      myfs_root mp = (none, ENOSYS) ∧ myfs_lookup ap = ENOSYS :=
  fun _ _ => ⟨rfl, rfl⟩

/-- Claim C2, counterexample: in the concrete state `sBusy`, whose single
cached vnode has reference count 1 (a live reference), unmount still
returns 0 (success) — not EBUSY — and frees the mount data. -/
theorem c2_counterexample :
    vnBusy.v_refcnt ≠ 0 ∧
    step sBusy DriverOp.opUnmount = some (sAfterUnmount, 0) ∧
    sAfterUnmount.mp.mnt_data = none ∧
    (0 : Nat) ≠ EBUSY :=
  ⟨by decide, rfl, rfl, by decide⟩

/-- Claim C2, amended: `myfs_unmount` always succeeds (returns 0) and
leaves `mnt_data` NULL, regardless of whether any vnode in the state has a
nonzero reference count; it performs no busy check and never returns
EBUSY. -/
theorem c2_unmount_always_succeeds :
    ∀ s : KernelState, ∃ s2 : KernelState,
      step s DriverOp.opUnmount = some (s2, 0) ∧
      s2.mp.mnt_data = none ∧ s2.vnodes = s.vnodes := by
  intro s
  obtain ⟨⟨d, st, fl⟩, vs⟩ := s
  cases d with
  | none => exact ⟨_, rfl, rfl, rfl⟩
  | some mmp => exact ⟨_, rfl, rfl, rfl⟩

/-- Claim C3, counterexample: `readA` reads at offset 0 of the size-0 file
`node0` — an offset at end-of-file — and `myfs_read` returns ENOSYS, an
error, not a zero-byte success. -/
theorem c3_counterexample :
    readA.a_vp.v_data = some node0 ∧
    node0.size ≤ readA.a_uio.uio_offset ∧
    myfs_read readA = ENOSYS ∧
    ENOSYS ≠ 0 :=
  ⟨rfl, by decide, rfl, by decide⟩

/-- Claim C3, amended: `myfs_read` is unimplemented: it returns ENOSYS for
every argument — in particular for every offset at or beyond the file's
size — and never reports a zero-byte success. -/
theorem c3_read_unimplemented :
    ∀ ap : VopReadArgs, myfs_read ap = ENOSYS ∧ ENOSYS ≠ 0 :=
  fun _ => ⟨rfl, by decide⟩

/-- Claim C4: every invocation of `myfs_ioctl` (ENOTTY) and of `myfs_poll`
(ENOSYS) fails with an errno realizing the spec's NotSupported error
kind. -/
theorem c4_ioctl_poll_not_supported :
    ∀ (ap1 : VopIoctlArgs) (ap2 : VopPollArgs),
      errnoKind (myfs_ioctl ap1) = some ErrorKind.notSupported ∧
      errnoKind (myfs_poll ap2) = some ErrorKind.notSupported :=
  fun _ _ => ⟨rfl, rfl⟩

/-- Claim C5: `myfs_close`, `myfs_reclaim` and `myfs_inactive` return 0
(success) for every input. -/
theorem c5_cleanup_never_fails :
    ∀ (cl : VopCloseArgs) (rc : VopReclaimArgs) (ia : VopInactiveArgs),
      myfs_close cl = 0 ∧ (myfs_reclaim rc).2 = 0 ∧ myfs_inactive ia = 0 := by
  intro cl rc ia
  refine ⟨rfl, ?_, rfl⟩
  unfold myfs_reclaim
  cases hd : rc.a_vp.v_data <;> simp [hd]

/-- Claim C6: for every mounted instance (`mnt_data` non-NULL),
`myfs_statfs` succeeds (returns 0) and reports `f_blocks` and `f_bfree`
equal to the superblock's `total_blocks` and `free_blocks`, and reports
both inode counts as 0. -/
theorem c6_statfs_reports_superblock :
    ∀ (mp : Mount) (mmp : MyfsMountData) (sbp : StatfsRec),
      mp.mnt_data = some mmp →
      ∃ out : StatfsRec,
        myfs_statfs mp sbp = some (out, 0) ∧
        out.f_blocks = mmp.sb.total_blocks ∧
        out.f_bfree = mmp.sb.free_blocks ∧
        out.f_bavail = mmp.sb.free_blocks ∧
        out.f_files = 0 ∧ out.f_ffree = 0 := by
  intro mp mmp sbp hd
  unfold myfs_statfs
  rw [hd]
  exact ⟨_, rfl, rfl, rfl, rfl, rfl, rfl⟩

/-- Claim C6, witness: the statfs contract evaluated on the concretely
mounted instance. -/
theorem c6_witness :
    mpMounted.mnt_data = some mmp0 ∧
    ∃ out : StatfsRec,
      myfs_statfs mpMounted sbp0 = some (out, 0) ∧
      out.f_blocks = mmp0.sb.total_blocks ∧
      out.f_bfree = mmp0.sb.free_blocks ∧
      out.f_bavail = mmp0.sb.free_blocks ∧
      out.f_files = 0 ∧ out.f_ffree = 0 :=
  ⟨rfl, c6_statfs_reports_superblock mpMounted mmp0 sbp0 rfl⟩

/-- Claim C7: the superblock invariant `free_blocks ≤ total_blocks` holds
right after `myfs_mount` and after every sequence of driver operations run
from a freshly mounted state. -/
theorem c7_free_le_total :
    (∀ mp : Mount, sbInvB (myfs_mount mp).1 = true) ∧
    (∀ (mp : Mount) (vs : List Vnode) (ops : List DriverOp) (s' : KernelState),
      run { mp := (myfs_mount mp).1, vnodes := vs } ops = some s' →
      sbInvB s'.mp = true) := by
  constructor
  · intro mp; rfl
  · intro mp vs ops s' hr
    exact run_mntPred _ ops { mp := (myfs_mount mp).1, vnodes := vs } s' rfl hr

/-- Claim C7, witness: the block-count invariant evaluated after a concrete
run (statfs, reclaim, blocking fsync) from a freshly mounted state. -/
theorem c7_witness :
    run { mp := (myfs_mount mp0).1, vnodes := [vnBusy] } ops0 = some sX ∧
    sbInvB sX.mp = true :=
  ⟨rfl, c7_free_le_total.2 mp0 [vnBusy] ops0 sX rfl⟩

/-- Claim C8: after every mount, the mount data is installed and its
superblock's magic equals MYFS_MAGIC, and the magic invariant keeps holding
after every sequence of driver operations run from a freshly mounted
state (for the whole lifetime of the mount). -/
theorem c8_magic_invariant :
    (∀ mp : Mount, (myfs_mount mp).1.mnt_data = some mmp0 ∧
      mmp0.sb.magic = MYFS_MAGIC ∧ magicInvB (myfs_mount mp).1 = true) ∧
    (∀ (mp : Mount) (vs : List Vnode) (ops : List DriverOp) (s' : KernelState),
      run { mp := (myfs_mount mp).1, vnodes := vs } ops = some s' →
      magicInvB s'.mp = true) := by
  constructor
  · intro mp; exact ⟨rfl, rfl, rfl⟩
  · intro mp vs ops s' hr
    exact run_mntPred _ ops { mp := (myfs_mount mp).1, vnodes := vs } s' rfl hr

/-- Claim C8, witness: the magic invariant evaluated after a concrete run
(open, close, unmount) from a freshly mounted state. -/
theorem c8_witness :
    run { mp := (myfs_mount mp0).1, vnodes := [vnBusy] } ops1 =
      some sAfterUnmount ∧
    magicInvB sAfterUnmount.mp = true :=
  ⟨rfl, c8_magic_invariant.2 mp0 [vnBusy] ops1 sAfterUnmount rfl⟩

/-- Claim C9: a blocking (MNT_WAIT) fsync on any cached vnode succeeds and
leaves the kernel state unchanged, and a second consecutive blocking fsync
also succeeds and changes nothing beyond the first: fsync is idempotent. -/
theorem c9_fsync_idempotent :
    ∀ (s : KernelState) (i : Nat) (vp : Vnode),
      s.vnodes.get? i = some vp →
      ∃ s1 : KernelState,
        step s (DriverOp.opFsync i MNT_WAIT) = some (s1, 0) ∧
        s1 = s ∧
        step s1 (DriverOp.opFsync i MNT_WAIT) = some (s1, 0) := by
  intro s i vp hg
  refine ⟨s, ?_, rfl, ?_⟩ <;>
    · simp only [step, withVnode]
      rw [hg]
      rfl

/-- Claim C9, witness: two consecutive blocking fsyncs of vnode 0 in the
concrete state `sBusy`. -/
theorem c9_witness :
    sBusy.vnodes.get? 0 = some vnBusy ∧
    ∃ s1 : KernelState,
      step sBusy (DriverOp.opFsync 0 MNT_WAIT) = some (s1, 0) ∧
      s1 = sBusy ∧
      step s1 (DriverOp.opFsync 0 MNT_WAIT) = some (s1, 0) :=
  ⟨rfl, c9_fsync_idempotent sBusy 0 vnBusy rfl⟩

/-- Claim C10: `myfs_reclaim` on any vnode returns 0 and clears `v_data`,
and calling it again on the resulting vnode leaves the state unchanged and
still returns 0: the NULL guard makes reclaim idempotent. -/
theorem c10_reclaim_idempotent :
    ∀ vp : Vnode,
      myfs_reclaim { a_vp := vp } = ({ vp with v_data := none }, 0) ∧
      myfs_reclaim { a_vp := { vp with v_data := none } } =
        ({ vp with v_data := none }, 0) := by
  intro vp
  obtain ⟨d, r⟩ := vp
  cases d <;> exact ⟨rfl, rfl⟩

end Myfs
